import Mathlib

/-!
Shallow embedding of the ECS kernel (EntityManager, ComponentStorage,
ComponentManager, SystemManager, Coordinator) from the repository headers.

Modelling conventions:
- `Entity` (`std::uint32_t`) and `ComponentTypeID` (`std::uint8_t`) become
  `Nat`; wraparound is written out as `% 256` where the source increments the
  8-bit `nextComponentType` counter.  No claim scenario approaches `2^32`
  entities, so no modulus is needed on entity identifiers.
- `Signature` (`std::bitset<64>`) becomes `Nat` viewed as a bit vector;
  `none()` is `= 0`, `reset()` writes `0`, `operator&` is `Nat.land`, and
  `set(pos, true)` is `||| 2 ^ pos` guarded by `pos < 64` because
  `std::bitset::set` throws `std::out_of_range` for `pos ≥ size`.
- `std::unordered_map` / `std::set` become association lists / element lists
  with the exact STL semantics used by the source: `insert` does NOT
  overwrite an existing key, `emplace` does NOT overwrite an existing key,
  `operator[]` default-inserts a value-initialized mapped value, `at` throws
  (modelled as `Except.error`), `erase` of a missing key is a no-op.
- `std::type_index` keys become `TypeKey := Nat`; component payload types
  become one type parameter `V` (the kernel never inspects payloads).
- Fallible paths return `Except EcsError`; reads of out-of-range indices of
  `std::array` (undefined behaviour in the source) are modelled as the
  distinguished error `EcsError.ub`.
- The entity capacity (`MAX_ENTITIES`, 5000 in `Types.hpp`) is kept as a
  constructor parameter `cap` so the spec scenarios at capacity 2 are
  directly expressible; `MAX_ENTITIES` records the source constant.
-/

abbrev Entity := Nat
abbrev Signature := Nat
abbrev ComponentTypeID := Nat
abbrev TypeKey := Nat

def MAX_ENTITIES : Nat := 5000
def MAX_COMPONENTS : Nat := 64

/-- Error outcomes of kernel operations.  `capacity` is the
"Too many entities in existence" throw, `underflow` the
"No entities to destroy" throw, `notFound` an `std::out_of_range` from
`unordered_map::at`, `outOfRange` a `std::bitset::set` position check, and
`ub` stands for undefined behaviour in the source (out-of-bounds
`std::array` indexing, dereferencing the null `shared_ptr` that
`operator[]` default-inserts for an unregistered type). -/
inductive EcsError where
  | capacity
  | underflow
  | notFound
  | outOfRange
  | ub
  deriving DecidableEq, Repr

/-- Model of `(entitySignature & systemSignature) == systemSignature`
(SystemManager.hpp line 100). -/
def sigMatch (entitySignature systemSignature : Signature) : Bool :=
  (entitySignature &&& systemSignature) == systemSignature

/-- Model of `std::bitset<64>::set(pos, true)`: sets bit `pos`; throws
`std::out_of_range` when `pos ≥ 64`. -/
def sigSet (s : Signature) (pos : Nat) : Except EcsError Signature :=
  if pos < MAX_COMPONENTS then .ok (s ||| 2 ^ pos) else .error .outOfRange

/-- Model of `std::unordered_map::insert({k, v})`: inserts only when `k` is absent;
an existing mapping is left untouched. -/
def mapInsert {α : Type} (m : List (TypeKey × α)) (k : TypeKey) (v : α) :
    List (TypeKey × α) :=
  if (m.lookup k).isSome then m else (k, v) :: m

/-- Writing through the reference obtained from `operator[]` on a key that is
present: replaces the mapped value at key `k`. -/
def mapSet {α : Type} (m : List (TypeKey × α)) (k : TypeKey) (v : α) :
    List (TypeKey × α) :=
  m.map (fun p => if p.1 == k then (p.1, v) else p)

/-- Extract the success value of an `Except`, with a default; used only to
name concrete computed states in closed theorems. -/
def exGetD {α : Type} (x : Except EcsError α) (d : α) : α :=
  match x with
  | .ok a => a
  | .error _ => d

/-! ## EntityManager (EntityManager.hpp) -/

/-- State of `EntityManager`: the FIFO queue `availableEntities` (front =
list head, `push` appends at the back), the flat signature array
`signatures` (modelled as a total function; every in-range slot starts
value-initialized to the empty signature), and `livingEntityCount`.
`cap` is the `MAX_ENTITIES` bound the instance was built with. -/
structure EntityManager where
  cap : Nat
  availableEntities : List Entity
  signatures : Entity → Signature
  livingEntityCount : Nat

namespace EntityManager

/-- The constructor: pushes `0, 1, …, cap-1` into the queue. -/
def init (cap : Nat) : EntityManager :=
  { cap := cap
    availableEntities := List.range cap
    signatures := fun _ => 0
    livingEntityCount := 0 }

/-- Model of `EntityManager::createEntity`: throws the capacity error when
`livingEntityCount >= MAX_ENTITIES`; otherwise pops the queue front and
increments the live count.  `front()`/`pop()` on an empty queue is
undefined behaviour, modelled as `.error .ub` (unreachable from `init`
states while the count guard holds). -/
def createEntity (em : EntityManager) : Except EcsError (Entity × EntityManager) :=
  if em.livingEntityCount ≥ em.cap then
    .error .capacity
  else
    match em.availableEntities with
    | [] => .error .ub
    | id :: rest =>
        .ok (id, { em with
                    availableEntities := rest
                    livingEntityCount := em.livingEntityCount + 1 })

/-- Model of `EntityManager::destroyEntity`: reads `signatures[entity]` (out of range
is UB, modelled as `.error .ub`); returns unchanged when the signature is
already empty; throws when the live count is zero; otherwise clears the
signature, pushes the identifier at the back of the queue and decrements
the live count. -/
def destroyEntity (em : EntityManager) (entity : Entity) :
    Except EcsError EntityManager :=
  if entity ≥ em.cap then .error .ub
  else if em.signatures entity == 0 then .ok em
  else if em.livingEntityCount == 0 then .error .underflow
  else
    .ok { em with
          signatures := fun e => if e = entity then 0 else em.signatures e
          availableEntities := em.availableEntities ++ [entity]
          livingEntityCount := em.livingEntityCount - 1 }

/-- Model of `EntityManager::entityExists`: `entity < MAX_ENTITIES &&
signatures[entity].any()` (the bound check short-circuits before the array
access). -/
def entityExists (em : EntityManager) (entity : Entity) : Bool :=
  decide (entity < em.cap) && (em.signatures entity != 0)

/-- Model of `EntityManager::getEntities`: scans the whole capacity range. -/
def getEntities (em : EntityManager) : List Entity :=
  (List.range em.cap).filter (fun e => em.entityExists e)

/-- Model of `EntityManager::setSignature`: unchecked array write (UB out of
range). -/
def setSignature (em : EntityManager) (entity : Entity) (signature : Signature) :
    Except EcsError EntityManager :=
  if entity < em.cap then
    .ok { em with signatures := fun e => if e = entity then signature else em.signatures e }
  else .error .ub

/-- Model of `EntityManager::getSignature`: unchecked array read (UB out of
range). -/
def getSignature (em : EntityManager) (entity : Entity) : Except EcsError Signature :=
  if entity < em.cap then .ok (em.signatures entity) else .error .ub

/-- Iterated `createEntity`, discarding the returned identifiers. -/
def createTimes (em : EntityManager) : Nat → Except EcsError EntityManager
  | 0 => .ok em
  | n + 1 =>
      match em.createEntity with
      | .error err => .error err
      | .ok r => r.2.createTimes n

end EntityManager

example : (EntityManager.init 2).createEntity =
    .ok (0, { cap := 2, availableEntities := [1], signatures := fun _ => 0,
              livingEntityCount := 1 }) := rfl

example :
    ((EntityManager.init 2).createTimes 2).map (fun em => em.livingEntityCount) =
      .ok 2 := rfl

/-! ## ComponentStorage (ComponentStorage.hpp) -/

/-- Model of `ComponentStorage<T>`: an `std::unordered_map<Entity, T>` modelled as an
association list. -/
structure ComponentStorage (V : Type) where
  componentMap : List (Entity × V)

namespace ComponentStorage

/-- Model of `ComponentStorage::insertData`: `componentMap.emplace(entity, component)`
— `emplace` has no effect when the key is already present. -/
def insertData {V : Type} (cs : ComponentStorage V) (entity : Entity)
    (component : V) : ComponentStorage V :=
  if (cs.componentMap.lookup entity).isSome then cs
  else { componentMap := (entity, component) :: cs.componentMap }

/-- Model of `ComponentStorage::removeData`: `componentMap.erase(entity)`; erasing a
missing key is a no-op. -/
def removeData {V : Type} (cs : ComponentStorage V) (entity : Entity) :
    ComponentStorage V :=
  { componentMap := cs.componentMap.filter (fun p => p.1 != entity) }

/-- Model of `ComponentStorage::getData`: `componentMap.at(entity)`; throws
`std::out_of_range` when absent. -/
def getData {V : Type} (cs : ComponentStorage V) (entity : Entity) :
    Except EcsError V :=
  match cs.componentMap.lookup entity with
  | some v => .ok v
  | none => .error .notFound

/-- Model of `ComponentStorage::hasData`: `find != end`. -/
def hasData {V : Type} (cs : ComponentStorage V) (entity : Entity) : Bool :=
  (cs.componentMap.lookup entity).isSome

/-- Model of `ComponentStorage::entityDestroyed`: `componentMap.erase(entity)`. -/
def entityDestroyed {V : Type} (cs : ComponentStorage V) (entity : Entity) :
    ComponentStorage V :=
  cs.removeData entity

end ComponentStorage

/-! ## ComponentManager (ComponentManager.hpp) -/

/-- State of `ComponentManager`: the `type_index → ComponentTypeID` map, the
`type_index → shared_ptr<storage>` map, and the `std::uint8_t` counter
`nextComponentType`. -/
structure ComponentManager (V : Type) where
  componentTypes : List (TypeKey × ComponentTypeID)
  componentStorages : List (TypeKey × ComponentStorage V)
  nextComponentType : Nat

namespace ComponentManager

/-- The default-constructed manager: both maps empty, counter 0. -/
def init (V : Type) : ComponentManager V :=
  { componentTypes := [], componentStorages := [], nextComponentType := 0 }

/-- Model of `ComponentManager::registerComponent<T>`: `insert`s the pair
`(T, nextComponentType)` and a fresh empty storage — both `insert`s are
no-ops when `T` is already a key — then increments the 8-bit counter
(wraparound at 256). -/
def registerComponent {V : Type} (cm : ComponentManager V) (t : TypeKey) :
    ComponentManager V :=
  { componentTypes := mapInsert cm.componentTypes t cm.nextComponentType
    componentStorages := mapInsert cm.componentStorages t { componentMap := [] }
    nextComponentType := (cm.nextComponentType + 1) % 256 }

/-- Model of `ComponentManager::getComponentTypeID<T>`: `componentTypes[typeName]` —
`operator[]` default-inserts the value-initialized identifier `0` when `T`
was never registered, and returns it.  The (possibly grown) map is returned
alongside the identifier. -/
def getComponentTypeID {V : Type} (cm : ComponentManager V) (t : TypeKey) :
    ComponentTypeID × ComponentManager V :=
  match cm.componentTypes.lookup t with
  | some id => (id, cm)
  | none => (0, { cm with componentTypes := (t, 0) :: cm.componentTypes })

/-- Model of `ComponentManager::addComponent<T>`:
`GetComponentStorage<T>()->insertData(entity, component)`.
`GetComponentStorage` reads `ComponentStorages[typeName]` with `operator[]`:
for an unregistered `T` this default-inserts a null `shared_ptr`, and the
call through it is UB (`.error .ub`). -/
def addComponent {V : Type} (cm : ComponentManager V) (entity : Entity)
    (component : V) (t : TypeKey) : Except EcsError (ComponentManager V) :=
  match cm.componentStorages.lookup t with
  | some cs =>
      .ok { cm with componentStorages :=
              mapSet cm.componentStorages t (cs.insertData entity component) }
  | none => .error .ub

/-- Model of `ComponentManager::removeComponent<T>`:
`GetComponentStorage<T>()->removeData(entity)`. -/
def removeComponent {V : Type} (cm : ComponentManager V) (entity : Entity)
    (t : TypeKey) : Except EcsError (ComponentManager V) :=
  match cm.componentStorages.lookup t with
  | some cs =>
      .ok { cm with componentStorages :=
              mapSet cm.componentStorages t (cs.removeData entity) }
  | none => .error .ub

/-- Model of `ComponentManager::getComponent<T>`:
`GetComponentStorage<T>()->getData(entity)`. -/
def getComponent {V : Type} (cm : ComponentManager V) (entity : Entity)
    (t : TypeKey) : Except EcsError V :=
  match cm.componentStorages.lookup t with
  | some cs => cs.getData entity
  | none => .error .ub

/-- Model of `ComponentManager::entityDestroyed`: broadcasts `entityDestroyed` to
every registered storage. -/
def entityDestroyed {V : Type} (cm : ComponentManager V) (entity : Entity) :
    ComponentManager V :=
  { cm with componentStorages :=
      cm.componentStorages.map (fun p => (p.1, p.2.entityDestroyed entity)) }

end ComponentManager

/-! ## SystemManager (SystemManager.hpp) -/

/-- An `std::set<Entity>` (the `System::entities` member) modelled as a
duplicate-free list: `insert` adds only when absent, `erase` filters. -/
def setInsert (l : List Entity) (e : Entity) : List Entity :=
  if e ∈ l then l else e :: l

/-- Model of `std::set::erase`. -/
def setErase (l : List Entity) (e : Entity) : List Entity :=
  l.filter (fun x => x != e)

/-- State of `SystemManager`: the `type_index → Signature` map and the
`type_index → shared_ptr<System>` map; of each `System` instance only the
`entities` set is state the manager touches. -/
structure SystemManager where
  signatures : List (TypeKey × Signature)
  systems : List (TypeKey × List Entity)

namespace SystemManager

/-- The default-constructed manager. -/
def init : SystemManager := { signatures := [], systems := [] }

/-- Model of `SystemManager::registerSystem<T>`: `make_shared<T>()` starts with an
empty entity set; `insert` is a no-op when `T` is already registered. -/
def registerSystem (sm : SystemManager) (t : TypeKey) : SystemManager :=
  { sm with systems := mapInsert sm.systems t [] }

/-- Model of `SystemManager::setSignature<T>`: `signatures.insert({typeName,
signature})` — no overwrite of an existing key. -/
def setSignature (sm : SystemManager) (t : TypeKey) (signature : Signature) :
    SystemManager :=
  { sm with signatures := mapInsert sm.signatures t signature }

/-- Model of `SystemManager::entityDestroyed`: erases the entity from the set of every system. -/
def entityDestroyed (sm : SystemManager) (entity : Entity) : SystemManager :=
  { sm with systems := sm.systems.map (fun p => (p.1, setErase p.2 entity)) }

/-- Model of `signatures[type]` inside `entitySignatureChanged`: `operator[]`
default-inserts the empty signature `0` for a system type with no declared
signature and returns it with the (possibly grown) map. -/
def signatureIndex (m : List (TypeKey × Signature)) (k : TypeKey) :
    Signature × List (TypeKey × Signature) :=
  match m.lookup k with
  | some v => (v, m)
  | none => (0, m ++ [(k, 0)])

/-- One iteration of the loop body of `entitySignatureChanged`: reads the
required signature of the system through `operator[]`, then inserts the entity
into the entity set of the system on `(entitySignature & systemSignature) ==
systemSignature` and erases it otherwise.  The accumulator carries the
threaded signature map and the processed systems. -/
def escStep (entity : Entity) (entitySignature : Signature)
    (acc : List (TypeKey × Signature) × List (TypeKey × List Entity))
    (p : TypeKey × List Entity) :
    List (TypeKey × Signature) × List (TypeKey × List Entity) :=
  let r := signatureIndex acc.1 p.1
  let ents := if sigMatch entitySignature r.1 then setInsert p.2 entity
              else setErase p.2 entity
  (r.2, acc.2 ++ [(p.1, ents)])

/-- Model of `SystemManager::entitySignatureChanged`: the loop over `systems`. -/
def entitySignatureChanged (sm : SystemManager) (entity : Entity)
    (entitySignature : Signature) : SystemManager :=
  let r := sm.systems.foldl (escStep entity entitySignature) (sm.signatures, [])
  { signatures := r.1, systems := r.2 }

end SystemManager

/-! ## Coordinator (Coordinator.hpp)

Every modelled method of the façade runs under the single exclusive lock in
the source; the lock itself has no observable effect on the sequential
state, so it does not appear in the embedding.  The `force` parameter of
`getComponent`/`hasComponent` only selects whether the lock is taken —
both branches run the same body — so each method is modelled once. -/

structure Coordinator (V : Type) where
  componentManager : ComponentManager V
  entityManager : EntityManager
  systemManager : SystemManager

namespace Coordinator

/-- Model of `Coordinator::init`, with the entity capacity as a parameter
(`MAX_ENTITIES = 5000` in the source). -/
def init (V : Type) (cap : Nat) : Coordinator V :=
  { componentManager := ComponentManager.init V
    entityManager := EntityManager.init cap
    systemManager := SystemManager.init }

/-- Model of `Coordinator::createEntity`. -/
def createEntity {V : Type} (c : Coordinator V) :
    Except EcsError (Entity × Coordinator V) :=
  match c.entityManager.createEntity with
  | .error err => .error err
  | .ok r => .ok (r.1, { c with entityManager := r.2 })

/-- Model of `Coordinator::entityExists`. -/
def entityExists {V : Type} (c : Coordinator V) (entity : Entity) : Bool :=
  c.entityManager.entityExists entity

/-- Model of `Coordinator::destroyEntity`: entity manager first (its throw aborts the
whole operation), then the component broadcast, then the system
broadcast. -/
def destroyEntity {V : Type} (c : Coordinator V) (entity : Entity) :
    Except EcsError (Coordinator V) :=
  match c.entityManager.destroyEntity entity with
  | .error err => .error err
  | .ok em =>
      .ok { componentManager := c.componentManager.entityDestroyed entity
            entityManager := em
            systemManager := c.systemManager.entityDestroyed entity }

/-- Model of `Coordinator::registerComponent<T>`. -/
def registerComponent {V : Type} (c : Coordinator V) (t : TypeKey) :
    Coordinator V :=
  { c with componentManager := c.componentManager.registerComponent t }

/-- Model of `Coordinator::registerSystem<T>`. -/
def registerSystem {V : Type} (c : Coordinator V) (t : TypeKey) :
    Coordinator V :=
  { c with systemManager := c.systemManager.registerSystem t }

/-- Model of `Coordinator::addComponent<T>`: inserts into the store, re-reads the
entity signature, sets the bit at `getComponentTypeID<T>()`, writes the
signature back, and propagates it to the system manager. -/
def addComponent {V : Type} (c : Coordinator V) (entity : Entity)
    (component : V) (t : TypeKey) : Except EcsError (Coordinator V) :=
  match c.componentManager.addComponent entity component t with
  | .error err => .error err
  | .ok cm =>
      match c.entityManager.getSignature entity with
      | .error err => .error err
      | .ok signature =>
          let r := cm.getComponentTypeID t
          match sigSet signature r.1 with
          | .error err => .error err
          | .ok signature2 =>
              match c.entityManager.setSignature entity signature2 with
              | .error err => .error err
              | .ok em =>
                  .ok { componentManager := r.2
                        entityManager := em
                        systemManager :=
                          c.systemManager.entitySignatureChanged entity signature2 }

/-- Model of `Coordinator::getComponent<T>` (both the locked and the `force`
branch call the same manager method). -/
def getComponent {V : Type} (c : Coordinator V) (entity : Entity)
    (t : TypeKey) : Except EcsError V :=
  c.componentManager.getComponent entity t

/-- Model of `Coordinator::setSystemSignature<T>`. -/
def setSystemSignature {V : Type} (c : Coordinator V) (t : TypeKey)
    (signature : Signature) : Coordinator V :=
  { c with systemManager := c.systemManager.setSignature t signature }

/-- Model of `Coordinator::getEntitySignature`. -/
def getEntitySignature {V : Type} (c : Coordinator V) (entity : Entity) :
    Except EcsError Signature :=
  c.entityManager.getSignature entity

end Coordinator

/-! ## Helper lemmas on the container models -/

theorem lookup_append_some {α : Type} {l : List (TypeKey × α)} {k : TypeKey}
    {v : α} (l2 : List (TypeKey × α)) (h : l.lookup k = some v) :
    (l ++ l2).lookup k = some v := by
  induction l with
  | nil => simp [List.lookup] at h
  | cons p rest ih =>
      obtain ⟨k0, v0⟩ := p
      rw [List.lookup_cons] at h
      rw [List.cons_append, List.lookup_cons]
      cases hk : (k == k0) with
      | true => simpa [hk] using h
      | false =>
          rw [hk] at h
          exact ih h

theorem lookup_append_none {α : Type} {l : List (TypeKey × α)} {k : TypeKey}
    (l2 : List (TypeKey × α)) (h : l.lookup k = none) :
    (l ++ l2).lookup k = l2.lookup k := by
  induction l with
  | nil => simp
  | cons p rest ih =>
      obtain ⟨k0, v0⟩ := p
      rw [List.lookup_cons] at h
      rw [List.cons_append, List.lookup_cons]
      cases hk : (k == k0) with
      | true => rw [hk] at h; simp at h
      | false =>
          rw [hk] at h
          exact ih h

theorem lookup_eq_none_of_keys_ne {α : Type} {l : List (TypeKey × α)}
    {k : TypeKey} (h : ∀ q ∈ l, q.1 ≠ k) : l.lookup k = none := by
  induction l with
  | nil => simp
  | cons p rest ih =>
      obtain ⟨k0, v0⟩ := p
      rw [List.lookup_cons]
      have hk : (k == k0) = false := by
        have := h (k0, v0) (List.mem_cons_self _ _)
        simp at this
        simp [Ne.symm this]
      rw [hk]
      exact ih (fun q hq => h q (List.mem_cons_of_mem _ hq))

theorem lookup_mapSet_self {α : Type} {m : List (TypeKey × α)} {k : TypeKey}
    {v : α} (w : α) (h : m.lookup k = some v) :
    (mapSet m k w).lookup k = some w := by
  induction m with
  | nil => simp [List.lookup] at h
  | cons p rest ih =>
      obtain ⟨k0, v0⟩ := p
      rw [List.lookup_cons] at h
      unfold mapSet
      cases hk : (k == k0) with
      | true =>
          have : k0 = k := by simpa using (beq_iff_eq.mp hk).symm
          simp [List.map_cons, this, List.lookup_cons]
      | false =>
          rw [hk] at h
          have hne : (k0 == k) = false := by
            simp at hk ⊢
            exact Ne.symm hk
          simp only [List.map_cons, hne, if_neg, Bool.false_eq_true,
            not_false_iff, List.lookup_cons, hk]
          exact ih h

theorem lookup_mapSet_ne {α : Type} {m : List (TypeKey × α)} {k k2 : TypeKey}
    (w : α) (h : k2 ≠ k) : (mapSet m k w).lookup k2 = m.lookup k2 := by
  induction m with
  | nil => simp [mapSet]
  | cons p rest ih =>
      obtain ⟨k0, v0⟩ := p
      unfold mapSet
      by_cases hk : k0 = k
      · subst hk
        have h2 : (k2 == k0) = false := by simpa using h
        simp only [List.map_cons, beq_self_eq_true, if_pos, List.lookup_cons, h2]
        exact ih
      · have h0 : (k0 == k) = false := by simpa using hk
        simp only [List.map_cons, h0, Bool.false_eq_true, if_neg,
          not_false_iff, List.lookup_cons]
        cases hk2 : (k2 == k0) with
        | true => rfl
        | false => exact ih

theorem lookup_filter_ne {α : Type} (l : List (Entity × α)) (e : Entity) :
    (l.filter (fun p => p.1 != e)).lookup e = none := by
  induction l with
  | nil => simp
  | cons p rest ih =>
      obtain ⟨k0, v0⟩ := p
      by_cases hk : k0 = e
      · subst hk
        simp only [List.filter_cons, bne_self_eq_false, Bool.false_eq_true,
          if_neg, not_false_iff]
        exact ih
      · have h0 : (k0 != e) = true := by simpa using hk
        have h1 : (e == k0) = false := by simpa using Ne.symm hk
        simp only [List.filter_cons, h0, if_pos, List.lookup_cons, h1]
        exact ih

theorem mem_setInsert_self (l : List Entity) (e : Entity) : e ∈ setInsert l e := by
  unfold setInsert
  by_cases h : e ∈ l
  · simp [h]
  · simp [h]

theorem not_mem_setErase_self (l : List Entity) (e : Entity) :
    e ∉ setErase l e := by
  unfold setErase
  simp [List.mem_filter]

theorem setInsert_of_mem {l : List Entity} {e : Entity} (h : e ∈ l) :
    setInsert l e = l := by
  simp [setInsert, h]

theorem setErase_of_not_mem {l : List Entity} {e : Entity} (h : e ∉ l) :
    setErase l e = l := by
  unfold setErase
  rw [List.filter_eq_self]
  intro a ha
  simp
  intro hae
  exact absurd (hae ▸ ha) h

/-! ## Claim C2 and C7 groundwork -/

theorem ComponentManager.getComponentTypeID_fst {V : Type}
    {cm : ComponentManager V} {t : TypeKey} {i : ComponentTypeID}
    (h : cm.componentTypes.lookup t = some i) :
    (cm.getComponentTypeID t).1 = i := by
  unfold ComponentManager.getComponentTypeID
  rw [h]

theorem ComponentManager.getComponentTypeID_storages {V : Type}
    (cm : ComponentManager V) (t : TypeKey) :
    (cm.getComponentTypeID t).2.componentStorages = cm.componentStorages := by
  unfold ComponentManager.getComponentTypeID
  cases h : cm.componentTypes.lookup t <;> rfl

/-- Claim C2, as the code has it (counterexample to the claim as frozen):
register the type keyed `0` in a fresh manager — it receives identifier
`0` — then register it a second time.  The claim asserts the identifier is
reassigned so that `getComponentTypeID` no longer returns `0`; in fact the
`unordered_map::insert` in `registerComponent` does not overwrite the
existing mapping, and `getComponentTypeID` still returns `0`. -/
theorem c2_counterexample :
    (((ComponentManager.init Nat).registerComponent 0).componentTypes.lookup 0
        = some 0) ∧
    (((((ComponentManager.init Nat).registerComponent 0).registerComponent 0)
        |>.getComponentTypeID 0).1 = 0) :=
  ⟨rfl, rfl⟩

/-- Claim C2 (corrected): a second `registerComponent` call for a type that
already has identifier `i` leaves the mapping untouched — the type keeps
identifier `i`, `getComponentTypeID` still returns `i`, and signature bits
computed from `i` stay valid — while `nextComponentType` is still
incremented (mod 256), wasting one identifier. -/
theorem c2_amended {V : Type} (cm : ComponentManager V) (t : TypeKey)
    (i : ComponentTypeID) (h : cm.componentTypes.lookup t = some i) :
    ((cm.registerComponent t).componentTypes.lookup t = some i) ∧
    (((cm.registerComponent t).getComponentTypeID t).1 = i) ∧
    ((cm.registerComponent t).nextComponentType
        = (cm.nextComponentType + 1) % 256) := by
  have htypes : (cm.registerComponent t).componentTypes = cm.componentTypes := by
    unfold ComponentManager.registerComponent mapInsert
    simp [h]
  refine ⟨htypes ▸ h, ?_, rfl⟩
  exact ComponentManager.getComponentTypeID_fst (htypes ▸ h)

/-- Witness for `c2_amended` at a concrete input: a fresh manager with the
type keyed `0` registered once (identifier `0`), registered again. -/
theorem c2_amended_witness :
    ((((ComponentManager.init Nat).registerComponent 0).registerComponent 0)
        |>.componentTypes.lookup 0) = some 0 ∧
    (((((ComponentManager.init Nat).registerComponent 0).registerComponent 0)
        |>.getComponentTypeID 0).1 = 0) ∧
    ((((ComponentManager.init Nat).registerComponent 0).registerComponent 0)
        |>.nextComponentType) = 2 :=
  c2_amended ((ComponentManager.init Nat).registerComponent 0) 0 0 rfl

/-- Claim C7: `getComponentTypeID` for a never-registered type does not
fail: the `operator[]` access default-inserts and returns the identifier
`0`, which is exactly the identifier the first-ever-registered type
receives in a fresh manager (the two types are aliased). -/
theorem c7_unregistered_returns_zero {V : Type} (cm : ComponentManager V)
    (t : TypeKey) (h : cm.componentTypes.lookup t = none) :
    ((cm.getComponentTypeID t).1 = 0) ∧
    (∀ u : TypeKey,
      (((ComponentManager.init V).registerComponent u).getComponentTypeID u).1
        = 0) := by
  constructor
  · unfold ComponentManager.getComponentTypeID
    rw [h]
  · intro u
    apply ComponentManager.getComponentTypeID_fst
    unfold ComponentManager.registerComponent ComponentManager.init mapInsert
    simp

/-- Witness for `c7_unregistered_returns_zero`: the fresh manager and the
never-registered type keyed `42`. -/
theorem c7_witness :
    (((ComponentManager.init Nat).getComponentTypeID 42).1 = 0) ∧
    (∀ u : TypeKey,
      (((ComponentManager.init Nat).registerComponent u).getComponentTypeID u).1
        = 0) :=
  c7_unregistered_returns_zero (ComponentManager.init Nat) 42 rfl

/-- Claim C8: `SystemManager::setSignature` records signatures with
`unordered_map::insert`, which does not overwrite: once the required
signature of a system type is recorded as `s1`, a later `setSignature`
call with any `s2` leaves it at `s1`. -/
theorem c8_setSignature_no_overwrite (sm : SystemManager) (t : TypeKey)
    (s1 s2 : Signature) (h : sm.signatures.lookup t = some s1) :
    ((sm.setSignature t s2).signatures.lookup t) = some s1 := by
  unfold SystemManager.setSignature mapInsert
  simp [h]

/-- Witness for `c8_setSignature_no_overwrite`: record signature `5` for
the system type keyed `3`, then call `setSignature` again with `9` — the
recorded signature is still `5`. -/
theorem c8_witness :
    (((SystemManager.init.setSignature 3 5).setSignature 3 9).signatures.lookup 3)
      = some 5 :=
  c8_setSignature_no_overwrite (SystemManager.init.setSignature 3 5) 3 5 9 rfl

/-! ## entitySignatureChanged: fold characterization (for C3, C9, C10) -/

theorem SystemManager.escStep_eq (e : Entity) (es : Signature)
    (sigs : List (TypeKey × Signature)) (done : List (TypeKey × List Entity))
    (p : TypeKey × List Entity) :
    SystemManager.escStep e es (sigs, done) p =
      ((SystemManager.signatureIndex sigs p.1).2,
       done ++ [(p.1,
         if sigMatch es (SystemManager.signatureIndex sigs p.1).1
         then setInsert p.2 e else setErase p.2 e)]) := rfl

theorem SystemManager.signatureIndex_fst (m : List (TypeKey × Signature))
    (k : TypeKey) :
    (SystemManager.signatureIndex m k).1 = (m.lookup k).getD 0 := by
  unfold SystemManager.signatureIndex
  cases h : m.lookup k <;> rfl

theorem SystemManager.signatureIndex_snd_lookup_ne
    (m : List (TypeKey × Signature)) (k k2 : TypeKey) (h : k2 ≠ k) :
    ((SystemManager.signatureIndex m k).2).lookup k2 = m.lookup k2 := by
  unfold SystemManager.signatureIndex
  cases hm : m.lookup k
  · cases h2 : m.lookup k2
    · rw [lookup_append_none _ h2, List.lookup_cons]
      have hk : (k2 == k) = false := by simpa using h
      rw [hk]
      rfl
    · rw [lookup_append_some _ h2]
  · rfl

/-- With duplicate-free system keys (always true of states built through
`registerSystem`, since `unordered_map` keys are unique), the loop of
`entitySignatureChanged` is a per-system map: each system keeps its key and
has the entity inserted or erased according to the superset test against
the signature recorded for that key (default `0`). -/
theorem SystemManager.esc_map (e : Entity) (es : Signature) :
    ∀ (ss : List (TypeKey × List Entity)) (sigs : List (TypeKey × Signature))
      (done : List (TypeKey × List Entity)),
      (ss.map Prod.fst).Nodup →
      (ss.foldl (SystemManager.escStep e es) (sigs, done)).2 =
        done ++ ss.map (fun q =>
          (q.1, if sigMatch es ((sigs.lookup q.1).getD 0)
                then setInsert q.2 e else setErase q.2 e)) := by
  intro ss
  induction ss with
  | nil => intro sigs done _; simp
  | cons p rest ih =>
      intro sigs done hnd
      have hp : p.1 ∉ rest.map Prod.fst := by
        rw [List.map_cons, List.nodup_cons] at hnd
        exact hnd.1
      have hrest : (rest.map Prod.fst).Nodup := by
        rw [List.map_cons, List.nodup_cons] at hnd
        exact hnd.2
      rw [List.foldl_cons, SystemManager.escStep_eq]
      rw [ih ((SystemManager.signatureIndex sigs p.1).2)
            (done ++ [(p.1,
              if sigMatch es (SystemManager.signatureIndex sigs p.1).1
              then setInsert p.2 e else setErase p.2 e)]) hrest]
      rw [List.append_assoc]
      rw [List.map_cons, SystemManager.signatureIndex_fst]
      have hmaps : rest.map (fun q =>
          (q.1, if sigMatch es
                  ((((SystemManager.signatureIndex sigs p.1).2).lookup q.1).getD 0)
                then setInsert q.2 e else setErase q.2 e)) =
        rest.map (fun q =>
          (q.1, if sigMatch es ((sigs.lookup q.1).getD 0)
                then setInsert q.2 e else setErase q.2 e)) := by
        apply List.map_congr_left
        intro q hq
        have hne : q.1 ≠ p.1 := by
          intro hqe
          exact hp (hqe ▸ List.mem_map_of_mem Prod.fst hq)
        rw [SystemManager.signatureIndex_snd_lookup_ne sigs p.1 q.1 hne]
      rw [hmaps]
      rfl

/-- Lookup in a key-preserving map over a key-duplicate-free association
list: the entry found for `t` is the image of the unique source entry. -/
theorem lookup_map_keyed {α β : Type} (g : TypeKey × α → β) :
    ∀ (ss : List (TypeKey × α)) (t : TypeKey) (sys : α),
      (ss.map Prod.fst).Nodup → (t, sys) ∈ ss →
      ((ss.map (fun q => (q.1, g q))).lookup t) = some (g (t, sys)) := by
  intro ss
  induction ss with
  | nil => intro t sys _ hmem; simp at hmem
  | cons p rest ih =>
      intro t sys hnd hmem
      obtain ⟨t0, s0⟩ := p
      have hp : t0 ∉ rest.map Prod.fst := by
        rw [List.map_cons, List.nodup_cons] at hnd
        exact hnd.1
      have hrest : (rest.map Prod.fst).Nodup := by
        rw [List.map_cons, List.nodup_cons] at hnd
        exact hnd.2
      rcases List.mem_cons.mp hmem with heq | hmem2
      · obtain ⟨ht, hs⟩ := Prod.mk.injEq .. ▸ heq
        subst ht
        subst hs
        simp [List.lookup_cons]
      · have hne : t ≠ t0 := by
          intro hte
          exact hp (hte ▸ List.mem_map_of_mem Prod.fst hmem2)
        have hk : (t == t0) = false := by simpa using hne
        rw [List.map_cons, List.lookup_cons, hk]
        exact ih t sys hrest hmem2

/-- Boolean observer: is `e` currently a member of the entity set of the
system registered under `t`? (`false` also when no such system exists.) -/
def SystemManager.systemHasEntity (sm : SystemManager) (t : TypeKey)
    (e : Entity) : Bool :=
  match sm.systems.lookup t with
  | some l => decide (e ∈ l)
  | none => false

theorem SystemManager.entitySignatureChanged_systems (sm : SystemManager)
    (e : Entity) (s : Signature)
    (hnd : (sm.systems.map Prod.fst).Nodup) :
    (sm.entitySignatureChanged e s).systems =
      sm.systems.map (fun q =>
        (q.1, if sigMatch s ((sm.signatures.lookup q.1).getD 0)
              then setInsert q.2 e else setErase q.2 e)) := by
  have h := SystemManager.esc_map e s sm.systems sm.signatures [] hnd
  rw [List.nil_append] at h
  exact h

/-- Claim C3: after `entitySignatureChanged(e, s)`, an entity `e` is a
member of the entity set of a registered system exactly when
`(s AND systemSignature) == systemSignature`, where `systemSignature` is
the signature recorded for that system (the empty signature when none was
declared): systems match on a superset of their required bits, not an
exact set. -/
theorem c3_membership (sm : SystemManager) (e : Entity) (s : Signature)
    (t : TypeKey) (sys : List Entity)
    (hnd : (sm.systems.map Prod.fst).Nodup)
    (hmem : (t, sys) ∈ sm.systems) :
    (sm.entitySignatureChanged e s).systemHasEntity t e
      = sigMatch s ((sm.signatures.lookup t).getD 0) := by
  unfold SystemManager.systemHasEntity
  rw [SystemManager.entitySignatureChanged_systems sm e s hnd,
      lookup_map_keyed _ sm.systems t sys hnd hmem]
  cases hm : sigMatch s ((sm.signatures.lookup t).getD 0) with
  | true => simp [hm, mem_setInsert_self]
  | false => simp [hm, not_mem_setErase_self]

/-- Concrete system manager used as witness input for `c3_membership`:
one system keyed `1` with required signature `3` and empty entity set, one
system keyed `2` with no recorded signature. -/
def sm3w : SystemManager := { signatures := [(1, 3)], systems := [(1, []), (2, [5])] }

/-- Witness for `c3_membership`: the entity `0` with signature `3` is a
member of the system keyed `1` (required signature `3`) after the
notification. -/
theorem c3_witness :
    (sm3w.entitySignatureChanged 0 3).systemHasEntity 1 0
      = sigMatch 3 ((sm3w.signatures.lookup 1).getD 0) :=
  c3_membership sm3w 0 3 1 [] (by decide) (by decide)

/-- Claim C10: a registered system for which `setSignature` was never
called captures every entity: the signature lookup inside
`entitySignatureChanged` default-inserts the empty required signature and
`(s AND 0) == 0` holds for every `s`, so the entity is inserted
regardless of its signature. -/
theorem c10_unset_signature_matches_all (sm : SystemManager) (e : Entity)
    (s : Signature) (t : TypeKey) (sys : List Entity)
    (hnd : (sm.systems.map Prod.fst).Nodup)
    (hmem : (t, sys) ∈ sm.systems)
    (hnone : sm.signatures.lookup t = none) :
    (sm.entitySignatureChanged e s).systemHasEntity t e = true := by
  unfold SystemManager.systemHasEntity
  rw [SystemManager.entitySignatureChanged_systems sm e s hnd,
      lookup_map_keyed _ sm.systems t sys hnd hmem]
  simp [hnone, sigMatch, mem_setInsert_self]

/-- Concrete system manager used as witness input for
`c10_unset_signature_matches_all`: one registered system keyed `7`, no
recorded signature at all. -/
def sm10w : SystemManager := { signatures := [], systems := [(7, [])] }

/-- Witness for `c10_unset_signature_matches_all`: even an entity with the
empty signature `0` is inserted into the signatureless system keyed `7`. -/
theorem c10_witness :
    (sm10w.entitySignatureChanged 3 0).systemHasEntity 7 3 = true :=
  c10_unset_signature_matches_all sm10w 3 0 7 [] (by decide) (by decide) rfl

/-! ## Claim C4: Coordinator.destroyEntity postconditions -/

/-- Does any registered component store still hold an entry for `e`? -/
def ComponentManager.someStoreHas {V : Type} (cm : ComponentManager V)
    (e : Entity) : Bool :=
  cm.componentStorages.any (fun p => p.2.hasData e)

/-- Is `e` a member of the entity set of any registered system? -/
def SystemManager.someSystemHas (sm : SystemManager) (e : Entity) : Bool :=
  sm.systems.any (fun p => decide (e ∈ p.2))

theorem EntityManager.destroyEntity_ok {em em2 : EntityManager}
    {entity : Entity} (h : em.destroyEntity entity = .ok em2) :
    entity < em2.cap ∧ em2.signatures entity = 0 := by
  unfold EntityManager.destroyEntity at h
  split at h
  · simp at h
  · next h1 =>
      split at h
      · next h2 =>
          obtain rfl : em = em2 := by simpa using h
          exact ⟨Nat.lt_of_not_le h1, by simpa using h2⟩
      · split at h
        · simp at h
        · obtain rfl : _ = em2 := by simpa using h
          exact ⟨Nat.lt_of_not_le h1, by simp⟩

/-- Claim C4: immediately after a `Coordinator::destroyEntity(e)` call that
completes (returns rather than throwing), `entityExists(e)` is false, the
signature of `e` reads back empty, no component store of any registered
type still holds an entry for `e`, and `e` is not a member of the entity
set of any registered system. -/
theorem c4_destroy_postconditions {V : Type} (c : Coordinator V) (e : Entity)
    (cr : Coordinator V) (h : c.destroyEntity e = .ok cr) :
    cr.entityExists e = false ∧
    cr.getEntitySignature e = .ok 0 ∧
    cr.componentManager.someStoreHas e = false ∧
    cr.systemManager.someSystemHas e = false := by
  unfold Coordinator.destroyEntity at h
  cases hem : c.entityManager.destroyEntity e with
  | error err => rw [hem] at h; simp at h
  | ok em =>
      rw [hem] at h
      obtain rfl : _ = cr := by simpa using h
      obtain ⟨hlt, hsig⟩ := EntityManager.destroyEntity_ok hem
      refine ⟨?_, ?_, ?_, ?_⟩
      · simp [Coordinator.entityExists, EntityManager.entityExists, hsig]
      · simp [Coordinator.getEntitySignature, EntityManager.getSignature, hlt, hsig]
      · unfold ComponentManager.someStoreHas ComponentManager.entityDestroyed
        rw [List.any_eq_false]
        intro p hp
        obtain ⟨q, hq, rfl⟩ := List.mem_map.mp hp
        simp [ComponentStorage.entityDestroyed, ComponentStorage.removeData,
          ComponentStorage.hasData, lookup_filter_ne]
      · unfold SystemManager.someSystemHas SystemManager.entityDestroyed
        rw [List.any_eq_false]
        intro p hp
        obtain ⟨q, hq, rfl⟩ := List.mem_map.mp hp
        simp [not_mem_setErase_self]

/-- Witness scenario for `c4_destroy_postconditions`: capacity-2
coordinator with component type `0` and system `1` registered, entity `0`
created and holding component value `7`, then destroyed. -/
def c4w : Coordinator Nat :=
  ((Coordinator.init Nat 2).registerComponent 0).registerSystem 1

def c4wB : Coordinator Nat :=
  exGetD (c4w.createEntity |>.map (fun r => r.2)) (Coordinator.init Nat 0)

def c4wC : Coordinator Nat :=
  exGetD (c4wB.addComponent 0 7 0) (Coordinator.init Nat 0)

def c4wD : Coordinator Nat :=
  exGetD (c4wC.destroyEntity 0) (Coordinator.init Nat 0)

/-- Witness for `c4_destroy_postconditions` on the concrete scenario. -/
theorem c4_witness :
    c4wD.entityExists 0 = false ∧
    c4wD.getEntitySignature 0 = .ok 0 ∧
    c4wD.componentManager.someStoreHas 0 = false ∧
    c4wD.systemManager.someSystemHas 0 = false :=
  c4_destroy_postconditions c4wC 0 c4wD rfl

/-! ## Claim C6/C9: Coordinator.addComponent -/

theorem ComponentManager.addComponent_found {V : Type} {cm : ComponentManager V}
    {t : TypeKey} {cs : ComponentStorage V} (e : Entity) (v : V)
    (hstore : cm.componentStorages.lookup t = some cs) :
    cm.addComponent e v t =
      .ok { cm with componentStorages :=
              mapSet cm.componentStorages t (cs.insertData e v) } := by
  unfold ComponentManager.addComponent
  rw [hstore]

/-- Success decomposition of `Coordinator::addComponent`: names the
intermediate states of the four fallible steps. -/
theorem Coordinator.addComponent_ok {V : Type} {c cr : Coordinator V}
    {e : Entity} {v : V} {t : TypeKey}
    (h : c.addComponent e v t = .ok cr) :
    ∃ cm s s2 em,
      c.componentManager.addComponent e v t = .ok cm ∧
      c.entityManager.getSignature e = .ok s ∧
      sigSet s (cm.getComponentTypeID t).1 = .ok s2 ∧
      c.entityManager.setSignature e s2 = .ok em ∧
      cr = { componentManager := (cm.getComponentTypeID t).2
             entityManager := em
             systemManager := c.systemManager.entitySignatureChanged e s2 } := by
  unfold Coordinator.addComponent at h
  cases hA : c.componentManager.addComponent e v t with
  | error err => rw [hA] at h; simp at h
  | ok cm =>
      rw [hA] at h
      cases hB : c.entityManager.getSignature e with
      | error err => rw [hB] at h; simp at h
      | ok s =>
          rw [hB] at h
          dsimp only at h
          cases hC : sigSet s (cm.getComponentTypeID t).1 with
          | error err => rw [hC] at h; simp at h
          | ok s2 =>
              rw [hC] at h
              dsimp only at h
              cases hD : c.entityManager.setSignature e s2 with
              | error err => rw [hD] at h; simp at h
              | ok em =>
                  rw [hD] at h
                  exact ⟨cm, s, s2, em, rfl, rfl, hC, hD, by simpa using h.symm⟩

/-- Claim C6 (corrected): the round-trip
`addComponent(e, v); getComponent(e) = v` holds provided the store of the
registered type does not already hold an entry for `e`; when it does, the
`emplace` in `insertData` keeps the old value (see the counterexample). -/
theorem c6_roundtrip_fresh {V : Type} (c cr : Coordinator V) (e : Entity)
    (v : V) (t : TypeKey) (cs : ComponentStorage V)
    (hstore : c.componentManager.componentStorages.lookup t = some cs)
    (hfresh : cs.componentMap.lookup e = none)
    (h : c.addComponent e v t = .ok cr) :
    cr.getComponent e t = .ok v := by
  obtain ⟨cm, s, s2, em, hA, hB, hC, hD, rfl⟩ := Coordinator.addComponent_ok h
  rw [ComponentManager.addComponent_found e v hstore] at hA
  obtain rfl : _ = cm := by simpa using hA
  unfold Coordinator.getComponent ComponentManager.getComponent
  rw [ComponentManager.getComponentTypeID_storages]
  rw [lookup_mapSet_self _ hstore]
  unfold ComponentStorage.insertData
  rw [hfresh]
  simp [ComponentStorage.getData, List.lookup_cons]

/-- Concrete states for claim C6: capacity-2 coordinator, component type
keyed `0` registered, entity `0` created; then the component is added
once with value `1` and a second time with value `2`. -/
def c6cx0 : Coordinator Nat := (Coordinator.init Nat 2).registerComponent 0

def c6cx1 : Coordinator Nat :=
  exGetD (c6cx0.createEntity |>.map (fun r => r.2)) (Coordinator.init Nat 0)

def c6cx2 : Coordinator Nat :=
  exGetD (c6cx1.addComponent 0 1 0) (Coordinator.init Nat 0)

def c6cx3 : Coordinator Nat :=
  exGetD (c6cx2.addComponent 0 2 0) (Coordinator.init Nat 0)

/-- Claim C6 counterexample: entity `0` already holds the component with
value `1`; `addComponent(0, 2)` completes, but `getComponent(0)` still
returns `1`, not the just-passed value `2` — the round-trip equation
fails when the entity already holds a component of the type. -/
theorem c6_counterexample :
    c6cx2.addComponent 0 2 0 = .ok c6cx3 ∧
    c6cx3.getComponent 0 0 = .ok 1 ∧ ((1 : Nat) = 2 → False) :=
  ⟨rfl, rfl, by decide⟩

/-- Witness for `c6_roundtrip_fresh`: the first `addComponent` (store has
no entry for entity `0` yet) does round-trip: `getComponent` returns `1`. -/
theorem c6_witness : c6cx2.getComponent 0 0 = .ok 1 :=
  c6_roundtrip_fresh c6cx1 c6cx2 0 1 0 { componentMap := [] } rfl rfl rfl

/-! ## Claim C9 -/

theorem lor_two_pow_of_testBit {n i : Nat} (h : n.testBit i = true) :
    n ||| 2 ^ i = n := by
  apply Nat.eq_of_testBit_eq
  intro j
  rw [Nat.testBit_lor]
  by_cases hij : i = j
  · subst hij
    simp [h, Nat.testBit_two_pow_self]
  · simp [Nat.testBit_two_pow_of_ne hij]

theorem ComponentStorage.insertData_existing {V : Type}
    {cs : ComponentStorage V} {e : Entity} {v1 : V} (v2 : V)
    (h : cs.componentMap.lookup e = some v1) :
    cs.insertData e v2 = cs := by
  unfold ComponentStorage.insertData
  rw [h]
  rfl

/-- Claim C9 (corrected): when the entity already holds a component of the
registered type (stored value `v1`, signature bit already set),
`addComponent(e, v2)` leaves the stored value at `v1` (the `emplace` does
not overwrite) and leaves the entity signature unchanged; and provided
every membership of `e` in the registered systems is already consistent
with the signature of `e`, the system entity sets are unchanged as well.
(Without the consistency premise memberships can change: see the
counterexample, where a system registered after the fact picks the entity
up on the second `addComponent`.) -/
theorem c9_amended {V : Type} (c cr : Coordinator V) (e : Entity) (v1 v2 : V)
    (t : TypeKey) (tid : ComponentTypeID) (cs : ComponentStorage V)
    (s : Signature)
    (hstore : c.componentManager.componentStorages.lookup t = some cs)
    (hval : cs.componentMap.lookup e = some v1)
    (htid : c.componentManager.componentTypes.lookup t = some tid)
    (hsig : c.entityManager.getSignature e = .ok s)
    (hbit : s.testBit tid = true)
    (hnd : (c.systemManager.systems.map Prod.fst).Nodup)
    (hcons : ∀ q ∈ c.systemManager.systems,
      (e ∈ q.2) ↔ sigMatch s ((c.systemManager.signatures.lookup q.1).getD 0) = true)
    (h : c.addComponent e v2 t = .ok cr) :
    cr.getComponent e t = .ok v1 ∧
    cr.getEntitySignature e = .ok s ∧
    cr.systemManager.systems = c.systemManager.systems := by
  obtain ⟨cm, s0, s2, em, hA, hB, hC, hD, rfl⟩ := Coordinator.addComponent_ok h
  rw [hsig] at hB
  obtain rfl : s = s0 := by simpa using hB
  rw [ComponentManager.addComponent_found e v2 hstore,
      ComponentStorage.insertData_existing v2 hval] at hA
  have hcm : ComponentManager.mk c.componentManager.componentTypes
      (mapSet c.componentManager.componentStorages t cs)
      c.componentManager.nextComponentType = cm := by
    simpa using hA
  have htid2 : cm.componentTypes.lookup t = some tid := by
    rw [← hcm]
    exact htid
  have hstor2 : cm.componentStorages
      = mapSet c.componentManager.componentStorages t cs := by
    rw [← hcm]
  rw [ComponentManager.getComponentTypeID_fst htid2] at hC
  unfold sigSet at hC
  split at hC
  · obtain rfl : s ||| 2 ^ tid = s2 := by simpa using hC
    have hs2 : s ||| 2 ^ tid = s := lor_two_pow_of_testBit hbit
    rw [hs2] at hD ⊢
    refine ⟨?_, ?_, ?_⟩
    · unfold Coordinator.getComponent ComponentManager.getComponent
      rw [ComponentManager.getComponentTypeID_storages]
      rw [hstor2, lookup_mapSet_self _ hstore]
      simp [ComponentStorage.getData, hval]
    · unfold EntityManager.setSignature at hD
      split at hD
      · next hlt =>
          obtain rfl : _ = em := by simpa using hD
          simp [Coordinator.getEntitySignature, EntityManager.getSignature, hlt]
      · simp at hD
    · rw [SystemManager.entitySignatureChanged_systems _ e s hnd]
      have hid : ∀ q ∈ c.systemManager.systems,
          (fun q : TypeKey × List Entity =>
            (q.1, if sigMatch s ((c.systemManager.signatures.lookup q.1).getD 0)
                  then setInsert q.2 e else setErase q.2 e)) q = q := by
        intro q hq
        cases hm : sigMatch s ((c.systemManager.signatures.lookup q.1).getD 0) with
        | true =>
            have hmem : e ∈ q.2 := (hcons q hq).mpr hm
            simp [hm, setInsert_of_mem hmem]
        | false =>
            have hmem : e ∉ q.2 := by
              intro hx
              rw [(hcons q hq).mp hx] at hm
              cases hm
            simp [hm, setErase_of_not_mem hmem]
      rw [List.map_congr_left hid]
      exact List.map_id _
  · simp at hC

/-- Concrete states for claim C9: capacity-2 coordinator, component type
keyed `0` registered, entity `0` created and given the component with
value `1`; then a system keyed `5` is registered (no signature declared,
entity set initially empty) and `addComponent(0, 2)` is called again. -/
def c9cx0 : Coordinator Nat := (Coordinator.init Nat 2).registerComponent 0

def c9cx1 : Coordinator Nat :=
  exGetD (c9cx0.createEntity |>.map (fun r => r.2)) (Coordinator.init Nat 0)

def c9cx2 : Coordinator Nat :=
  exGetD (c9cx1.addComponent 0 1 0) (Coordinator.init Nat 0)

def c9cx3 : Coordinator Nat := c9cx2.registerSystem 5

def c9cx4 : Coordinator Nat :=
  exGetD (c9cx3.addComponent 0 2 0) (Coordinator.init Nat 0)

/-- Claim C9 counterexample: entity `0` already holds the component of
type `0` with value `1`, yet the repeated `addComponent(0, 2)` does NOT
leave the system memberships unchanged: the system keyed `5` (registered
after the first add, no signature declared) did not contain `0` before
the call and contains `0` after it. -/
theorem c9_counterexample :
    c9cx3.componentManager.getComponent 0 0 = .ok 1 ∧
    c9cx3.systemManager.systemHasEntity 5 0 = false ∧
    c9cx3.addComponent 0 2 0 = .ok c9cx4 ∧
    c9cx4.systemManager.systemHasEntity 5 0 = true :=
  ⟨rfl, rfl, rfl, rfl⟩

def c9w3 : Coordinator Nat :=
  exGetD (c9cx2.addComponent 0 2 0) (Coordinator.init Nat 0)

/-- Witness for `c9_amended`: repeated `addComponent` on the concrete
scenario with no registered system — value, signature and system list are
all unchanged. -/
theorem c9_witness :
    c9w3.getComponent 0 0 = .ok 1 ∧
    c9w3.getEntitySignature 0 = .ok 1 ∧
    c9w3.systemManager.systems = c9cx2.systemManager.systems :=
  c9_amended c9cx2 c9w3 0 1 2 0 0 { componentMap := [(0, 1)] } 1
    rfl rfl rfl rfl rfl (by decide) (by decide) rfl


/-! ## Claim C1 -/

theorem EntityManager.createTimes_succ (em : EntityManager) (n : Nat) :
    em.createTimes (n + 1) =
      match em.createEntity with
      | .error err => .error err
      | .ok r => r.2.createTimes n := rfl

theorem EntityManager.createTimes_ok :
    ∀ (n : Nat) (em : EntityManager),
      em.livingEntityCount + n ≤ em.cap →
      n ≤ em.availableEntities.length →
      ∃ em2, em.createTimes n = .ok em2 ∧
        em2.cap = em.cap ∧
        em2.livingEntityCount = em.livingEntityCount + n ∧
        em2.availableEntities = em.availableEntities.drop n ∧
        em2.signatures = em.signatures := by
  intro n
  induction n with
  | zero =>
      intro em h1 h2
      exact ⟨em, rfl, rfl, rfl, rfl, rfl⟩
  | succ k ih =>
      intro em h1 h2
      cases hq : em.availableEntities with
      | nil => rw [hq] at h2; simp at h2
      | cons id rest =>
          have hstep : em.createEntity =
              .ok (id, { em with
                availableEntities := rest
                livingEntityCount := em.livingEntityCount + 1 }) := by
            unfold EntityManager.createEntity
            rw [if_neg (by omega), hq]
          obtain ⟨em2, hrun, hcap, hcount, havail, hsig⟩ :=
            ih { em with
                  availableEntities := rest
                  livingEntityCount := em.livingEntityCount + 1 }
              (by show em.livingEntityCount + 1 + k ≤ em.cap; omega)
              (by show k ≤ rest.length
                  rw [hq, List.length_cons] at h2
                  omega)
          refine ⟨em2, ?_, hcap, ?_, ?_, hsig⟩
          · rw [EntityManager.createTimes_succ, hstep]
            exact hrun
          · have hc : em2.livingEntityCount = em.livingEntityCount + 1 + k := hcount
            omega
          · rw [havail, List.drop_succ_cons]

/-- After a destroy that actually recycles (non-empty signature, positive
live count) on a manager whose queue is empty, the next create succeeds
and returns exactly the destroyed identifier. -/
theorem EntityManager.recycle_one {em : EntityManager} {e : Entity}
    (hcap : e < em.cap) (hcount : 0 < em.livingEntityCount)
    (hcount2 : em.livingEntityCount - 1 < em.cap)
    (hsig : em.signatures e ≠ 0) (hq : em.availableEntities = []) :
    ∃ em3 r, em.destroyEntity e = .ok em3 ∧ em3.createEntity = .ok r ∧
      r.1 = e := by
  obtain ⟨cap, avail, sigs, count⟩ := em
  dsimp only at hcap hcount hcount2 hsig hq
  subst hq
  have hb : (sigs e == 0) = false := by simpa using hsig
  have hc : (count == 0) = false := by
    simpa using Nat.pos_iff_ne_zero.mp hcount
  refine ⟨⟨cap, [e], fun x => if x = e then 0 else sigs x, count - 1⟩,
          (e, ⟨cap, [], fun x => if x = e then 0 else sigs x, count - 1 + 1⟩),
          ?_, ?_, rfl⟩
  · unfold EntityManager.destroyEntity
    rw [if_neg (Nat.not_le.mpr hcap), hb, hc]
    simp
  · unfold EntityManager.createEntity
    rw [if_neg (show ¬ (cap ≤ count - 1) by omega)]

/-- The amended claim C1 at capacity `N`: the first `N` creates succeed,
the `(N+1)`-th fails with the capacity error; and a destroy of a created
identifier whose slot holds a non-empty signature (at least one component
added, modelled by `setSignature e 1`) followed by one create succeeds
and returns that same identifier. -/
def ClaimC1Amended (N : Nat) : Prop :=
  ∃ emN, (EntityManager.init N).createTimes N = .ok emN ∧
    emN.createEntity = .error .capacity ∧
    ∀ e, e < N →
      ∃ em2 em3 r, emN.setSignature e 1 = .ok em2 ∧
        em2.destroyEntity e = .ok em3 ∧
        em3.createEntity = .ok r ∧ r.1 = e

/-- Claim C1 (corrected).  As frozen the claim fails: a freshly created
entity has the empty signature, so `destroyEntity` is a silent no-op on
it and the following create still fails (see the counterexample).
Amended: the first `N` creates succeed and the `(N+1)`-th fails with the
capacity error; and when the destroyed entity holds a non-empty
signature, one destroy followed by one create succeeds and returns the
destroyed identifier (in particular the capacity-2 scenario returns
`e0`). -/
theorem c1_amended (N : Nat) (h_pos : 0 < N) : ClaimC1Amended N := by
  obtain ⟨emN, hrun, hcap, hcount, havail, hsig⟩ :=
    EntityManager.createTimes_ok N (EntityManager.init N)
      (by show 0 + N ≤ N; omega)
      (by show N ≤ (List.range N).length; rw [List.length_range])
  have hcapN : emN.cap = N := hcap
  have hcountN : emN.livingEntityCount = N := by
    have h0 : emN.livingEntityCount = 0 + N := hcount
    omega
  have hNpos : 0 < N := h_pos
  have havailN : emN.availableEntities = [] := by
    have h0 : emN.availableEntities = (List.range N).drop N := havail
    rw [h0]
    exact List.drop_eq_nil_of_le (by simp)
  refine ⟨emN, hrun, ?_, ?_⟩
  · unfold EntityManager.createEntity
    rw [if_pos (by omega)]
  · intro e he
    unfold EntityManager.setSignature
    have hlt : e < emN.cap := by omega
    rw [if_pos hlt]
    obtain ⟨em3, r, hdes, hcre, hr⟩ :=
      @EntityManager.recycle_one
        { emN with
          signatures := fun x => if x = e then 1 else emN.signatures x }
        e
        (by show e < emN.cap; omega)
        (by show 0 < emN.livingEntityCount; omega)
        (by show emN.livingEntityCount - 1 < emN.cap; omega)
        (by simp)
        (by show emN.availableEntities = []; exact havailN)
    exact ⟨_, em3, r, rfl, hdes, hcre, hr⟩

/-- Witness for `c1_amended` at the capacity-2 instantiation from the
spec scenario. -/
theorem c1_amended_witness : 0 < 2 ∧ ClaimC1Amended 2 :=
  ⟨by decide, c1_amended 2 (by decide)⟩

def c1cxA : EntityManager :=
  exGetD ((EntityManager.init 2).createTimes 2) (EntityManager.init 0)

def c1cxB : EntityManager :=
  exGetD (c1cxA.destroyEntity 0) (EntityManager.init 0)

/-- Claim C1 counterexample: at capacity 2, after creating `e0 = 0` and
`e1 = 1` (both succeed; the third create fails as claimed),
`destroyEntity(0)` on the freshly created entity is a silent no-op (its
signature is still empty), and the next `createEntity` STILL fails with
the capacity error instead of succeeding and returning `e0`. -/
theorem c1_counterexample :
    (EntityManager.init 2).createTimes 2 = .ok c1cxA ∧
    c1cxA.destroyEntity 0 = .ok c1cxB ∧
    c1cxB.createEntity = .error .capacity :=
  ⟨rfl, rfl, rfl⟩

/-! ## Claim C5 -/

/-- An operation on the `EntityManager`: one `createEntity` call or one
`destroyEntity(e)` call. -/
inductive EMOp where
  | create
  | destroy (e : Entity)

/-- Ghost-instrumented execution: alongside the manager state, the list of
identifiers currently live — returned by a successful create and not since
reclaimed by a destroy that took effect (observable as the live count
decreasing).  A call that throws leaves the state unchanged. -/
def applyOp (s : EntityManager × List Entity) (op : EMOp) :
    EntityManager × List Entity :=
  match op with
  | .create =>
      match s.1.createEntity with
      | .ok r => (r.2, s.2 ++ [r.1])
      | .error _ => s
  | .destroy e =>
      match s.1.destroyEntity e with
      | .ok em2 =>
          (em2, if em2.livingEntityCount < s.1.livingEntityCount
                then s.2.filter (fun x => x != e) else s.2)
      | .error _ => s

/-- Run a sequence of create/destroy operations from a fresh manager. -/
def runOps (cap : Nat) (ops : List EMOp) : EntityManager × List Entity :=
  ops.foldl applyOp (EntityManager.init cap, [])

/-- Invariant tying the ghost live list to the manager state: the live
list has no duplicates, the queue has no duplicates, no live identifier
sits in the queue, and every signature slot is empty (no component was
ever attached, as in a pure create/destroy sequence). -/
def EMInv (s : EntityManager × List Entity) : Prop :=
  s.2.Nodup ∧ s.1.availableEntities.Nodup ∧
  (∀ x ∈ s.2, x ∉ s.1.availableEntities) ∧
  (∀ e, s.1.signatures e = 0)

theorem applyOp_inv {s : EntityManager × List Entity} (op : EMOp)
    (hinv : EMInv s) : EMInv (applyOp s op) := by
  obtain ⟨hlive, hqueue, hdisj, hsig⟩ := hinv
  cases op with
  | create =>
      unfold applyOp
      cases hc : s.1.createEntity with
      | error err => exact ⟨hlive, hqueue, hdisj, hsig⟩
      | ok r =>
          unfold EntityManager.createEntity at hc
          split at hc
          · simp at hc
          · cases hq : s.1.availableEntities with
            | nil => rw [hq] at hc; simp at hc
            | cons id rest =>
                rw [hq] at hc
                obtain rfl : _ = r := by simpa using hc
                rw [hq] at hqueue hdisj
                rw [List.nodup_cons] at hqueue
                refine ⟨?_, hqueue.2, ?_, hsig⟩
                · rw [List.nodup_append]
                  refine ⟨hlive, List.nodup_singleton id, ?_⟩
                  intro x hx
                  simp only [List.mem_singleton]
                  intro hxe
                  exact (hdisj x hx) (hxe ▸ List.mem_cons_self id rest)
                · intro x hx
                  rcases List.mem_append.mp hx with hx1 | hx2
                  · exact fun hr => (hdisj x hx1) (List.mem_cons_of_mem id hr)
                  · rw [List.mem_singleton] at hx2
                    subst hx2
                    exact hqueue.1
  | destroy e =>
      unfold applyOp
      dsimp only
      cases hd : s.1.destroyEntity e with
      | error err => exact ⟨hlive, hqueue, hdisj, hsig⟩
      | ok em2 =>
          unfold EntityManager.destroyEntity at hd
          split at hd
          · simp at hd
          · rw [show (s.1.signatures e == 0) = true by simp [hsig e]] at hd
            obtain rfl : s.1 = em2 := by simpa using hd
            simp only [Nat.lt_irrefl, if_neg, Bool.false_eq_true, not_false_iff]
            exact ⟨hlive, hqueue, hdisj, hsig⟩

/-- Claim C5: along every sequence of `createEntity`/`destroyEntity`
operations on a fresh manager of any capacity, the list of
simultaneously-live identifiers never contains a duplicate: an identifier
handed out by create is not handed out again before a destroy reclaims
it.  (In such sequences all signatures stay empty, so every destroy is in
fact a silent no-op and nothing is ever recycled.) -/
theorem foldl_applyOp_inv :
    ∀ (ops : List EMOp) (s : EntityManager × List Entity),
      EMInv s → EMInv (ops.foldl applyOp s) := by
  intro ops
  induction ops with
  | nil => intro s hs; exact hs
  | cons op rest ih =>
      intro s hs
      exact ih (applyOp s op) (applyOp_inv op hs)

theorem c5_no_duplicate_live (cap : Nat) (ops : List EMOp) :
    ((runOps cap ops).2).Nodup := by
  have hinv : EMInv (runOps cap ops) := by
    unfold runOps
    apply foldl_applyOp_inv
    refine ⟨List.nodup_nil, List.nodup_range cap, ?_, fun _ => rfl⟩
    intro x hx
    simp at hx
  exact hinv.1
